import Mathlib

/-!
Verification development for the centralized webhook dispatcher
(src/server.js, primary document).  The JavaScript source is shallowly
embedded: JSON values become an inductive type, the HTTP environment
(axios) becomes an explicit outcome function, and every handler becomes a
pure Lean function over those.  HMAC-SHA512 (node crypto) is implemented
bit-faithfully from FIPS 180-4 / RFC 2104 so signature computations are
executable.
-/

/- ============================================================
   JSON value model (the shape of express-parsed request bodies).
   JsonArr / JsonObj are unrolled lists so that all recursion over the
   tree is plain mutual structural recursion.
   ============================================================ -/

mutual
inductive Json where
  | null : Json
  | bool : Bool → Json
  | num : Int → Json
  | str : String → Json
  | arr : JsonArr → Json
  | obj : JsonObj → Json

inductive JsonArr where
  | nil : JsonArr
  | cons : Json → JsonArr → JsonArr

inductive JsonObj where
  | nil : JsonObj
  | cons : String → Json → JsonObj → JsonObj
end

/-- Opening brace character (written by code point to keep it out of string
literals). -/
def lbrace : Char := Char.ofNat 123

/-- Closing brace character. -/
def rbrace : Char := Char.ofNat 125

/-- Escape of one character inside a JSON string literal, as
JSON.stringify produces it (the characters our bodies use). -/
def escapeChar (c : Char) : String :=
  if c = Char.ofNat 34 then "\\\""
  else if c = '\\' then "\\\\"
  else if c = Char.ofNat 10 then "\\n"
  else if c = Char.ofNat 13 then "\\r"
  else if c = Char.ofNat 9 then "\\t"
  else String.singleton c

/-- A JSON string literal with quotes, as JSON.stringify writes it. -/
def quoteString (s : String) : String :=
  "\"" ++ String.join (s.toList.map escapeChar) ++ "\""

mutual
/-- Model of JavaScript JSON.stringify on parsed bodies: no added
whitespace, object fields in insertion order. -/
def jsonStringify : Json → String
  | .null => "null"
  | .bool true => "true"
  | .bool false => "false"
  | .num n => toString n
  | .str s => quoteString s
  | .arr xs => "[" ++ stringifyArr xs ++ "]"
  | .obj fs => "\x7b" ++ stringifyObj fs ++ "\x7d"

/-- Comma-separated serialization of array elements. -/
def stringifyArr : JsonArr → String
  | .nil => ""
  | .cons x .nil => jsonStringify x
  | .cons x (.cons y tl) => jsonStringify x ++ "," ++ stringifyArr (.cons y tl)

/-- Comma-separated serialization of object fields. -/
def stringifyObj : JsonObj → String
  | .nil => ""
  | .cons k v .nil => quoteString k ++ ":" ++ jsonStringify v
  | .cons k v (.cons k2 v2 tl) =>
      quoteString k ++ ":" ++ jsonStringify v ++ "," ++ stringifyObj (.cons k2 v2 tl)
end

mutual
/-- Model of JavaScript String(x) conversion (used by template literals
when a value is interpolated into a URL). -/
def jsToString : Json → String
  | .null => "null"
  | .bool true => "true"
  | .bool false => "false"
  | .num n => toString n
  | .str s => s
  | .arr xs => jsToStringArr xs
  | .obj _ => "[object Object]"

/-- Array.prototype.toString joins elements with commas. -/
def jsToStringArr : JsonArr → String
  | .nil => ""
  | .cons x .nil => jsToString x
  | .cons x (.cons y tl) => jsToString x ++ "," ++ jsToStringArr (.cons y tl)
end

/-- JavaScript truthiness of a JSON value (NaN does not arise from parsed
JSON integers). -/
def jsTruthy : Json → Bool
  | .null => false
  | .bool b => b
  | .num n => decide (n ≠ 0)
  | .str s => decide (s ≠ "")
  | .arr _ => true
  | .obj _ => true

/-- Truthiness of a possibly-absent value: JavaScript undefined is falsy. -/
def jsOptTruthy : Option Json → Bool
  | none => false
  | some j => jsTruthy j

/-- Field lookup in an object spine; a later duplicate key overrides an
earlier one, as JSON.parse builds objects. -/
def objGet : JsonObj → String → Option Json
  | .nil, _ => none
  | .cons k v tl, key =>
      match objGet tl key with
      | some r => some r
      | none => if k = key then some v else none

/-- JavaScript property access x[key]: undefined (none) on any
non-object, as for the primitive values that can appear in a body. -/
def getField : Json → String → Option Json
  | .obj fs, key => objGet fs key
  | _, _ => none

/-- Optional-chaining access x?.key on a possibly-absent value. -/
def optChain (x : Option Json) (key : String) : Option Json :=
  match x with
  | none => none
  | some j => getField j key

/- ============================================================
   A fueled recursive-descent model of JSON.parse (express.json), on the
   fragment the dispatcher's bodies use: objects, arrays, strings with
   the basic escapes, integer numbers, true/false/null.  Inputs outside
   the fragment make the parse return none rather than a wrong value.
   ============================================================ -/

/-- JSON whitespace skipper. -/
def skipWs : List Char → List Char
  | [] => []
  | c :: cs =>
      if c = ' ' ∨ c = Char.ofNat 9 ∨ c = Char.ofNat 10 ∨ c = Char.ofNat 13 then
        skipWs cs
      else c :: cs

/-- Decimal digit test. -/
def isDigitCh (c : Char) : Bool := decide ('0' ≤ c ∧ c ≤ '9')

/-- Splits a leading run of digits from the rest. -/
def takeDigits : List Char → List Char × List Char
  | [] => ([], [])
  | c :: cs =>
      if isDigitCh c then
        let (ds, rest) := takeDigits cs
        (c :: ds, rest)
      else ([], c :: cs)

/-- Numeric value of a digit run. -/
def digitsToNat (ds : List Char) : Nat :=
  ds.foldl (fun acc c => 10 * acc + (c.toNat - 48)) 0

/-- Reads the characters of a JSON string body up to the closing quote,
decoding the basic escapes; none on escapes outside the fragment. -/
def parseStrChars (fuel : Nat) (cs : List Char) : Option (List Char × List Char) :=
  match fuel, cs with
  | 0, _ => none
  | _, [] => none
  | fuel + 1, c :: cs =>
      if c = Char.ofNat 34 then some ([], cs)
      else if c = '\\' then
        match cs with
        | [] => none
        | e :: cs2 =>
            let dec : Option Char :=
              if e = Char.ofNat 34 then some (Char.ofNat 34)
              else if e = '\\' then some '\\'
              else if e = '/' then some '/'
              else if e = 'n' then some (Char.ofNat 10)
              else if e = 't' then some (Char.ofNat 9)
              else if e = 'r' then some (Char.ofNat 13)
              else none
            match dec with
            | none => none
            | some d =>
                match parseStrChars fuel cs2 with
                | none => none
                | some (body, rest) => some (d :: body, rest)
      else
        match parseStrChars fuel cs with
        | none => none
        | some (body, rest) => some (c :: body, rest)

mutual
/-- One JSON value at the head of the input (whitespace already allowed
before it); returns the value and the unconsumed rest. -/
def parseVal : Nat → List Char → Option (Json × List Char)
  | 0, _ => none
  | fuel + 1, cs =>
      match skipWs cs with
      | [] => none
      | c :: cs2 =>
          if c = 'n' then
            match cs2 with
            | 'u' :: 'l' :: 'l' :: rest => some (.null, rest)
            | _ => none
          else if c = 't' then
            match cs2 with
            | 'r' :: 'u' :: 'e' :: rest => some (.bool true, rest)
            | _ => none
          else if c = 'f' then
            match cs2 with
            | 'a' :: 'l' :: 's' :: 'e' :: rest => some (.bool false, rest)
            | _ => none
          else if c = Char.ofNat 34 then
            match parseStrChars (fuel + 1) cs2 with
            | none => none
            | some (body, rest) => some (.str (String.mk body), rest)
          else if c = '-' then
            match takeDigits cs2 with
            | ([], _) => none
            | (ds, rest) => some (.num (-(Int.ofNat (digitsToNat ds))), rest)
          else if isDigitCh c then
            let (ds, rest) := takeDigits (c :: cs2)
            some (.num (Int.ofNat (digitsToNat ds)), rest)
          else if c = '[' then
            match skipWs cs2 with
            | ']' :: rest => some (.arr .nil, rest)
            | cs3 => match parseArrItems fuel cs3 with
                     | none => none
                     | some (xs, rest) => some (.arr xs, rest)
          else if c = lbrace then
            match skipWs cs2 with
            | d :: rest =>
                if d = rbrace then some (.obj .nil, rest)
                else match parseObjItems fuel (d :: rest) with
                     | none => none
                     | some (fs, rest2) => some (.obj fs, rest2)
            | [] => none
          else none

/-- Comma-separated array elements up to the closing bracket. -/
def parseArrItems : Nat → List Char → Option (JsonArr × List Char)
  | 0, _ => none
  | fuel + 1, cs =>
      match parseVal fuel cs with
      | none => none
      | some (x, rest) =>
          match skipWs rest with
          | ',' :: rest2 =>
              match parseArrItems fuel rest2 with
              | none => none
              | some (xs, rest3) => some (.cons x xs, rest3)
          | ']' :: rest2 => some (.cons x .nil, rest2)
          | _ => none

/-- Comma-separated key:value fields up to the closing brace. -/
def parseObjItems : Nat → List Char → Option (JsonObj × List Char)
  | 0, _ => none
  | fuel + 1, cs =>
      match skipWs cs with
      | q :: cs2 =>
          if q = Char.ofNat 34 then
            match parseStrChars fuel cs2 with
            | none => none
            | some (key, rest) =>
                match skipWs rest with
                | ':' :: rest2 =>
                    match parseVal fuel rest2 with
                    | none => none
                    | some (v, rest3) =>
                        match skipWs rest3 with
                        | ',' :: rest4 =>
                            match parseObjItems fuel rest4 with
                            | none => none
                            | some (fs, rest5) =>
                                some (.cons (String.mk key) v fs, rest5)
                        | d :: rest4 =>
                            if d = rbrace then
                              some (.cons (String.mk key) v .nil, rest4)
                            else none
                        | [] => none
                | _ => none
          else none
      | [] => none
end

/-- Model of JSON.parse on a whole document: one value, then only
whitespace.  none where the real parser would throw or where the input
leaves the modeled fragment. -/
def jsonParse (s : String) : Option Json :=
  match parseVal (4 * s.length + 8) s.toList with
  | none => none
  | some (j, rest) =>
      match skipWs rest with
      | [] => some j
      | _ => none

/- ============================================================
   HMAC-SHA512 (node crypto createHmac('sha512', key)), implemented from
   FIPS 180-4 and RFC 2104.  Words are Nat taken mod 2^64; the round and
   initialization constants are computed from the primes exactly as the
   standard defines them (fractional parts of square and cube roots),
   so no magic constant is transcribed.
   ============================================================ -/

/-- Trial-division primality on Nat (executable; used only to list the
first 80 primes for the SHA-512 constants). -/
def isPrimeNat (n : Nat) : Bool :=
  2 ≤ n && ((List.range n).all fun m => m < 2 || ¬ (m ∣ n))

/-- The first 80 primes, 2 .. 409 (all below 500). -/
def first80Primes : List Nat :=
  ((List.range 500).filter isPrimeNat).take 80

/-- Integer cube root by binary search (fuel-structured so the kernel
can evaluate it). -/
def icbrtAux : Nat → Nat → Nat → Nat → Nat
  | 0, lo, _, _ => lo
  | fuel + 1, lo, hi, n =>
      if hi ≤ lo + 1 then lo
      else
        let mid := (lo + hi) / 2
        if mid * mid * mid ≤ n then icbrtAux fuel mid hi n
        else icbrtAux fuel lo mid n

/-- Floor of the cube root of n. -/
def icbrt (n : Nat) : Nat := icbrtAux 400 0 (n + 1) n

/-- Integer square root by binary search (fuel-structured so the kernel
can evaluate it). -/
def isqrtAux : Nat → Nat → Nat → Nat → Nat
  | 0, lo, _, _ => lo
  | fuel + 1, lo, hi, n =>
      if hi ≤ lo + 1 then lo
      else
        let mid := (lo + hi) / 2
        if mid * mid ≤ n then isqrtAux fuel mid hi n
        else isqrtAux fuel lo mid n

/-- Floor of the square root of n. -/
def isqrt (n : Nat) : Nat := isqrtAux 400 0 (n + 1) n

/-- SHA-512 initial hash words as FIPS 180-4 defines them: first 64 bits
of the fractional parts of the square roots of the first 8 primes. -/
def sha512H0fromPrimes : List Nat :=
  (first80Primes.take 8).map fun p => isqrt (p * 2 ^ 128) % 2 ^ 64

/-- SHA-512 round constants as FIPS 180-4 defines them: first 64 bits of
the fractional parts of the cube roots of the first 80 primes. -/
def sha512KfromPrimes : List Nat :=
  first80Primes.map fun p => icbrt (p * 2 ^ 192) % 2 ^ 64

/-- The eight initial hash words, as literals (certified below to equal
the from-primes definition). -/
def sha512H0 : List Nat :=
  [7640891576956012808, 13503953896175478587, 4354685564936845355,
   11912009170470909681, 5840696475078001361, 11170449401992604703,
   2270897969802886507, 6620516959819538809]

/-- The eighty round constants, as literals (certified below to equal
the from-primes definition). -/
def sha512K : List Nat :=
  [4794697086780616226, 8158064640168781261, 13096744586834688815,
   16840607885511220156, 4131703408338449720, 6480981068601479193,
   10538285296894168987, 12329834152419229976, 15566598209576043074,
   1334009975649890238, 2608012711638119052, 6128411473006802146,
   8268148722764581231, 9286055187155687089, 11230858885718282805,
   13951009754708518548, 16472876342353939154, 17275323862435702243,
   1135362057144423861, 2597628984639134821, 3308224258029322869,
   5365058923640841347, 6679025012923562964, 8573033837759648693,
   10970295158949994411, 12119686244451234320, 12683024718118986047,
   13788192230050041572, 14330467153632333762, 15395433587784984357,
   489312712824947311, 1452737877330783856, 2861767655752347644,
   3322285676063803686, 5560940570517711597, 5996557281743188959,
   7280758554555802590, 8532644243296465576, 9350256976987008742,
   10552545826968843579, 11727347734174303076, 12113106623233404929,
   14000437183269869457, 14369950271660146224, 15101387698204529176,
   15463397548674623760, 17586052441742319658, 1182934255886127544,
   1847814050463011016, 2177327727835720531, 2830643537854262169,
   3796741975233480872, 4115178125766777443, 5681478168544905931,
   6601373596472566643, 7507060721942968483, 8399075790359081724,
   8693463985226723168, 9568029438360202098, 10144078919501101548,
   10430055236837252648, 11840083180663258601, 13761210420658862357,
   14299343276471374635, 14566680578165727644, 15097957966210449927,
   16922976911328602910, 17689382322260857208, 500013540394364858,
   748580250866718886, 1242879168328830382, 1977374033974150939,
   2944078676154940804, 3659926193048069267, 4368137639120453308,
   4836135668995329356, 5532061633213252278, 6448918945643986474,
   6902733635092675308, 7801388544844847127]

/-- Addition mod 2^64. -/
def add64 (a b : Nat) : Nat := (a + b) % 2 ^ 64

/-- Right rotation of a 64-bit word. -/
def rotr64 (n x : Nat) : Nat :=
  ((x >>> n) ||| (x <<< (64 - n))) % 2 ^ 64

/-- Bitwise complement of a 64-bit word. -/
def not64 (x : Nat) : Nat := x ^^^ (2 ^ 64 - 1)

/-- FIPS 180-4 Ch function. -/
def shaCh (x y z : Nat) : Nat := (x &&& y) ^^^ (not64 x &&& z)

/-- FIPS 180-4 Maj function. -/
def shaMaj (x y z : Nat) : Nat := (x &&& y) ^^^ (x &&& z) ^^^ (y &&& z)

/-- FIPS 180-4 Sigma0 for SHA-512. -/
def bigSigma0 (x : Nat) : Nat := rotr64 28 x ^^^ rotr64 34 x ^^^ rotr64 39 x

/-- FIPS 180-4 Sigma1 for SHA-512. -/
def bigSigma1 (x : Nat) : Nat := rotr64 14 x ^^^ rotr64 18 x ^^^ rotr64 41 x

/-- FIPS 180-4 sigma0 for SHA-512. -/
def smallSigma0 (x : Nat) : Nat := rotr64 1 x ^^^ rotr64 8 x ^^^ (x >>> 7)

/-- FIPS 180-4 sigma1 for SHA-512. -/
def smallSigma1 (x : Nat) : Nat := rotr64 19 x ^^^ rotr64 61 x ^^^ (x >>> 6)

/-- Big-endian bytes of a number, fixed width. -/
def natToBytesBE (width n : Nat) : List Nat :=
  (List.range width).map fun i => (n >>> (8 * (width - 1 - i))) % 256

/-- One 64-bit word from 8 big-endian bytes. -/
def bytesToWord (bs : List Nat) : Nat :=
  bs.foldl (fun acc b => acc * 256 + b) 0

/-- Groups a byte list into 8-byte big-endian words. -/
def bytesToWords : List Nat → List Nat
  | b0 :: b1 :: b2 :: b3 :: b4 :: b5 :: b6 :: b7 :: rest =>
      bytesToWord [b0, b1, b2, b3, b4, b5, b6, b7] :: bytesToWords rest
  | _ => []

/-- SHA-512 padding: 0x80, zeros to 112 mod 128, then the 16-byte
big-endian bit length. -/
def sha512Pad (msg : List Nat) : List Nat :=
  let len := msg.length
  let zeros := (128 + 112 - ((len + 1) % 128)) % 128
  msg ++ [128] ++ List.replicate zeros 0 ++ natToBytesBE 16 (8 * len)

/-- Message-schedule extension: given the schedule so far in reverse
(newest first), produces the next word. -/
def nextW (rw : List Nat) : Nat :=
  add64 (add64 (smallSigma1 (rw.getD 1 0)) (rw.getD 6 0))
        (add64 (smallSigma0 (rw.getD 14 0)) (rw.getD 15 0))

/-- Extends a 16-word block to the 80-word schedule (count counts the
words still to add). -/
def extendW : Nat → List Nat → List Nat
  | 0, rw => rw.reverse
  | count + 1, rw => extendW count (nextW rw :: rw)

/-- One compression round over the state [a,b,c,d,e,f,g,h] with round
constant k and schedule word w. -/
def sha512Round (st : List Nat) (kw : Nat × Nat) : List Nat :=
  match st with
  | [a, b, c, d, e, f, g, h] =>
      let t1 := add64 (add64 (add64 h (bigSigma1 e)) (add64 (shaCh e f g) kw.1)) kw.2
      let t2 := add64 (bigSigma0 a) (shaMaj a b c)
      [add64 t1 t2, a, b, c, add64 d t1, e, f, g]
  | other => other

/-- Compression of one 128-byte block into the running hash. -/
def sha512Block (h : List Nat) (block : List Nat) : List Nat :=
  let w := extendW 64 (bytesToWords block).reverse
  let st := (sha512K.zip w).foldl sha512Round h
  (h.zip st).map fun p => add64 p.1 p.2

/-- Chunks the padded message into 128-byte blocks. -/
def chunk128 : Nat → List Nat → List (List Nat)
  | 0, _ => []
  | _, [] => []
  | fuel + 1, bs => bs.take 128 :: chunk128 fuel (bs.drop 128)

/-- SHA-512 of a byte list, as the eight 64-bit hash words. -/
def sha512Words (msg : List Nat) : List Nat :=
  let padded := sha512Pad msg
  (chunk128 (padded.length / 128 + 1) padded).foldl sha512Block sha512H0

/-- SHA-512 digest as bytes. -/
def sha512Bytes (msg : List Nat) : List Nat :=
  (sha512Words msg).flatMap (natToBytesBE 8)

/-- Lowercase hex digit. -/
def hexDigit (n : Nat) : Char :=
  if n < 10 then Char.ofNat (48 + n) else Char.ofNat (87 + n)

/-- Lowercase hex of a byte list (digest('hex')). -/
def bytesToHex (bs : List Nat) : String :=
  String.mk (bs.flatMap fun b => [hexDigit (b / 16), hexDigit (b % 16)])

/-- RFC 2104 HMAC with SHA-512: block size 128 bytes. -/
def hmacSha512Bytes (key msg : List Nat) : List Nat :=
  let k0 := if 128 < key.length then sha512Bytes key else key
  let kpad := k0 ++ List.replicate (128 - k0.length) 0
  let ipad := kpad.map (· ^^^ 54)
  let opad := kpad.map (· ^^^ 92)
  sha512Bytes (opad ++ sha512Bytes (ipad ++ msg))

/-- Bytes of an ASCII string (the secrets, bodies and signatures in the
claims are ASCII; node Buffer.from(s, 'utf8') agrees there). -/
def strBytes (s : String) : List Nat := s.toList.map Char.toNat

/-- crypto.createHmac('sha512', secret).update(text).digest('hex'). -/
def hmacSha512Hex (secret text : String) : String :=
  bytesToHex (hmacSha512Bytes (strBytes secret) (strBytes text))

/- ============================================================
   Subscriber registry (TICKETING_SYSTEMS, src/server.js lines 39-56)
   and the downstream HTTP environment.  axios is embedded as a function
   of the downstream behavior at a URL: an HTTP response, a timeout, or
   a transport failure; validateStatus (status < 500) decides which
   responses fulfil and which reject, as in both axios call sites.
   ============================================================ -/

structure TicketingSystem where
  id : Option String
  name : String
  baseUrl : String
  webhookPath : String
  healthCheck : String
  enabled : Bool
  timeout : Option Nat
deriving DecidableEq

/-- The initial registry: CBS (with id and timeout; base URL from the
environment with a fallback) and MMV (no id, no timeout). -/
def TICKETING_SYSTEMS (cbsBaseUrlEnv : Option String) : List TicketingSystem :=
  [{ id := some "cbs-ticketing",
     name := "CBS Ticketing",
     baseUrl := cbsBaseUrlEnv.getD "https://cbs-ticketing.com",
     webhookPath := "/api/webhooks/paystack",
     healthCheck := "/health",
     enabled := true,
     timeout := some 30000 },
   { id := none,
     name := "MMV Ticketing",
     baseUrl := "https://api.cuministrymmv.org",
     webhookPath := "/api/webhooks/paystack",
     healthCheck := "/health",
     enabled := true,
     timeout := none }]

/-- What the downstream service at a URL does for one request. -/
inductive DownstreamBehavior where
  | respond (status : Nat) (body : Json)
  | timeout
  | netFail (code : String) (message : String)

/-- How an awaited axios call ends: fulfilled with a response, or
rejected with an error carrying message, transport code and the
downstream status when a response exists. -/
inductive AxiosOutcome where
  | fulfilled (status : Nat) (body : Json)
  | rejected (message : String) (code : Option String) (responseStatus : Option Nat)

/-- axios with validateStatus (status) => status < 500, the option both
dispatcher call sites pass: a response below 500 fulfils; 500+ rejects
with the response attached; timeout and transport failures reject with
no response. -/
def axiosLt500 (timeoutMs : Nat) (b : DownstreamBehavior) : AxiosOutcome :=
  match b with
  | .respond s body =>
      if s < 500 then .fulfilled s body
      else
        .rejected ("Request failed with status code " ++ toString s)
          (some "ERR_BAD_RESPONSE") (some s)
  | .timeout =>
      .rejected ("timeout of " ++ toString timeoutMs ++ "ms exceeded")
        (some "ECONNABORTED") none
  | .netFail code message => .rejected message (some code) none

/-- The outbound calls a dispatch makes, in order: the fan-out
verification GETs and the single forward POST. -/
structure ForwardHeaders where
  contentType : String
  xPaystackSignature : Option String
  userAgent : String
  xForwardedFor : String
  xRequestId : String
deriving DecidableEq

inductive DispatchAction where
  | verifyLookup (url : String)
  | forwardPost (url : String) (bodyBytes : String) (headers : ForwardHeaders)
deriving DecidableEq

/-- Whether an action is the forward POST. -/
def DispatchAction.isForward : DispatchAction → Bool
  | .forwardPost _ _ _ => true
  | .verifyLookup _ => false

/- ============================================================
   findTargetSystem (src/server.js lines 229-340): one concurrent
   lookup per enabled system, Promise.all, then first non-null in
   registry order.
   ============================================================ -/

/-- The per-system verification URL,
system.baseUrl + /api/tickets/verify/ + reference (template-literal
string conversion on the reference). -/
def checkUrl (system : TicketingSystem) (paymentReference : Json) : String :=
  system.baseUrl ++ "/api/tickets/verify/" ++ jsToString paymentReference

/-- The per-system match test (lines 274-275): status 200, or status
400 with a truthy response.data?.data?.ticket; a rejected call was
caught and returned null, so it never matches. -/
def lookupFound (outcome : AxiosOutcome) : Bool :=
  match outcome with
  | .fulfilled status body =>
      status == 200 ||
        (status == 400 && jsOptTruthy (optChain (optChain (some body) "data") "ticket"))
  | .rejected _ _ _ => false

/-- One search promise (lines 239-317): the system on a match, null
otherwise; every error is swallowed into null by the catch. -/
def systemCheck (net : String → DownstreamBehavior) (paymentReference : Json)
    (system : TicketingSystem) : Option TicketingSystem :=
  if lookupFound (axiosLt500 (system.timeout.getD 5000) (net (checkUrl system paymentReference))) then
    some system
  else none

/-- findTargetSystem: filters to enabled systems, awaits every check
(Promise.all keeps registry order regardless of completion order), and
takes the first non-null result.  Also returns the verification calls
issued, in order. -/
def findTargetSystem (net : String → DownstreamBehavior) (paymentReference : Json)
    (systems : List TicketingSystem) : Option TicketingSystem × List DispatchAction :=
  let enabledSystems := systems.filter (·.enabled)
  let results := enabledSystems.map (systemCheck net paymentReference)
  ((results.find? Option.isSome).join,
   enabledSystems.map fun s => DispatchAction.verifyLookup (checkUrl s paymentReference))

/- ============================================================
   forwardWebhook (src/server.js lines 345-413).
   ============================================================ -/

/-- JavaScript x || d on strings: empty (falsy) or absent falls back. -/
def jsOrStr (v : Option String) (d : String) : String :=
  match v with
  | some s => if s = "" then d else s
  | none => d

/-- The forward result's status field: error.response?.status ||
'network_error' (0 would be falsy in JavaScript, so it also falls
through to the string). -/
inductive ForwardStatus where
  | httpStatus (code : Nat)
  | networkErrorStr
deriving DecidableEq

def jsOrNetworkError (responseStatus : Option Nat) : ForwardStatus :=
  match responseStatus with
  | some n => if n = 0 then .networkErrorStr else .httpStatus n
  | none => .networkErrorStr

structure ForwardResult where
  success : Bool
  status : ForwardStatus
  data : Option Json
  error : Option String

/-- What the failure branch logs (lines 393-404): message, transport
error code, downstream status when present. -/
structure ForwardErrorLog where
  errorMessage : String
  errorCode : Option String
  responseStatus : Option Nat
deriving DecidableEq

/-- The forward target URL, targetSystem.baseUrl +
targetSystem.webhookPath. -/
def forwardUrl (targetSystem : TicketingSystem) : String :=
  targetSystem.baseUrl ++ targetSystem.webhookPath

/-- The headers of the forward POST (lines 361-367). -/
def forwardHeaders (origSignature : Option String) (origForwardedFor : Option String)
    (requestId : String) : ForwardHeaders :=
  { contentType := "application/json",
    xPaystackSignature := origSignature,
    userAgent := "Paystack-Webhook-Dispatcher/1.0",
    xForwardedFor := jsOrStr origForwardedFor "dispatcher",
    xRequestId := requestId }

/-- forwardWebhook: posts the parsed body (axios serializes it with
JSON.stringify) to the target with the relayed headers; classifies the
outcome.  Returns the result, the outbound call, and the error log
entry of the failure branch. -/
def forwardWebhook (net : String → DownstreamBehavior) (targetSystem : TicketingSystem)
    (webhookBody : Json) (origSignature : Option String) (origForwardedFor : Option String)
    (requestId : String) : ForwardResult × DispatchAction × Option ForwardErrorLog :=
  let url := forwardUrl targetSystem
  let action := DispatchAction.forwardPost url (jsonStringify webhookBody)
    (forwardHeaders origSignature origForwardedFor requestId)
  match axiosLt500 (targetSystem.timeout.getD 30000) (net url) with
  | .fulfilled status body =>
      ({ success := true, status := .httpStatus status, data := some body, error := none },
       action, none)
  | .rejected message code responseStatus =>
      ({ success := false, status := jsOrNetworkError responseStatus, data := none,
         error := some message },
       action,
       some { errorMessage := message, errorCode := code, responseStatus := responseStatus })

/- ============================================================
   POST /admin/systems (src/server.js lines 527-572): the
   append-subscriber administrative mutation.  The destructured request
   fields are modeled at their configured types (strings, boolean,
   number); a missing field is none and an empty string is falsy, which
   is exactly what the guard if (!id || !name || !baseUrl) rejects.
   ============================================================ -/

structure AdminSystemRequest where
  id : Option String
  name : Option String
  baseUrl : Option String
  webhookPath : Option String
  enabled : Option Bool
  timeout : Option Nat
deriving DecidableEq

/-- An HTTP handler response: status code and JSON body. -/
structure HandlerResponse where
  status : Nat
  body : Json

/-- A JSON object field whose value may be absent (JSON.stringify drops
a field holding undefined). -/
def optField (key : String) (v : Option Json) (rest : JsonObj) : JsonObj :=
  match v with
  | none => rest
  | some j => .cons key j rest

/-- A registered system as res.json serializes it in the admin add
response. -/
def systemToJson (s : TicketingSystem) : Json :=
  .obj (optField "id" (s.id.map Json.str)
    (.cons "name" (.str s.name)
      (.cons "baseUrl" (.str s.baseUrl)
        (.cons "webhookPath" (.str s.webhookPath)
          (.cons "healthCheck" (.str s.healthCheck)
            (.cons "enabled" (.bool s.enabled)
              (optField "timeout" (s.timeout.map fun n => Json.num (Int.ofNat n)) .nil)))))))

/-- The body res.status(400).json({ error: msg }) sends. -/
def errorBody (msg : String) : Json := .obj (.cons "error" (.str msg) .nil)

/-- POST /admin/systems: requires truthy id, name and baseUrl, applies
the webhookPath/enabled/timeout defaults, and appends the new system to
TICKETING_SYSTEMS unconditionally (no duplicate-identifier check
appears in the source).  Returns the response and the registry
afterwards. -/
def appPostAdminSystems (registry : List TicketingSystem) (req : AdminSystemRequest) :
    HandlerResponse × List TicketingSystem :=
  match req.id, req.name, req.baseUrl with
  | some id, some name, some baseUrl =>
      if id = "" ∨ name = "" ∨ baseUrl = "" then
        ({ status := 400, body := errorBody "ID, name and baseUrl required" }, registry)
      else
        let newSystem : TicketingSystem :=
          { id := some id,
            name := name,
            baseUrl := baseUrl,
            webhookPath := req.webhookPath.getD "/api/webhooks/paystack",
            healthCheck := "/health",
            enabled := req.enabled.getD true,
            timeout := some (req.timeout.getD 30000) }
        ({ status := 200,
           body := .obj (.cons "success" (.bool true)
             (.cons "message" (.str "System added successfully")
               (.cons "system" (systemToJson newSystem) .nil))) },
         registry ++ [newSystem])
  | _, _, _ =>
      ({ status := 400, body := errorBody "ID, name and baseUrl required" }, registry)

/- ============================================================
   The dispatch orchestrator, app.post('/webhooks/paystack')
   (src/server.js lines 67-224).  Wall-clock durations are taken as a
   parameter; the logger is a write-only side channel and is omitted;
   the surrounding try/catch only matters for exceptions, which the
   pure embedding cannot raise.
   ============================================================ -/

/-- The main webhook receiver: signature guard, reference extraction,
resolution, forward, response.  Returns the response and the outbound
calls made, in order. -/
def handlePaystackWebhook (secret : String) (systems : List TicketingSystem)
    (net : String → DownstreamBehavior) (requestId : String) (processingTime : Int)
    (sigHeader : Option String) (xForwardedFor : Option String) (body : Json) :
    HandlerResponse × List DispatchAction :=
  match sigHeader with
  | none => ({ status := 400, body := errorBody "Missing signature" }, [])
  | some signature =>
      let hash := hmacSha512Hex secret (jsonStringify body)
      if hash ≠ signature then
        ({ status := 400, body := errorBody "Invalid signature" }, [])
      else
        let paymentReference := optChain (getField body "data") "reference"
        match paymentReference with
        | none => ({ status := 400, body := errorBody "No payment reference" }, [])
        | some r =>
            if jsTruthy r = false then
              ({ status := 400, body := errorBody "No payment reference" }, [])
            else
              match findTargetSystem net r systems with
              | (none, lookupActions) =>
                  ({ status := 404,
                     body := .obj (.cons "error"
                       (.str "Payment reference not found in any system")
                       (.cons "reference" r .nil)) },
                   lookupActions)
              | (some targetSystem, lookupActions) =>
                  match forwardWebhook net targetSystem body (some signature)
                      xForwardedFor requestId with
                  | (forwardResult, forwardAction, _) =>
                      if forwardResult.success then
                        ({ status := 200,
                           body := .obj (.cons "success" (.bool true)
                             (.cons "requestId" (.str requestId)
                               (.cons "forwardedTo" (.str targetSystem.name)
                                 (.cons "processingTime" (.num processingTime)
                                   (optField "response" forwardResult.data .nil))))) },
                         lookupActions ++ [forwardAction])
                      else
                        ({ status := 500,
                           body := .obj (.cons "error" (.str "Failed to forward webhook")
                             (.cons "requestId" (.str requestId)
                               (optField "details" (forwardResult.error.map Json.str) .nil))) },
                         lookupActions ++ [forwardAction])

/- ============================================================
   Definitions naming the claim-level notions, and the concrete
   environments the closed witnesses and counterexamples use.
   ============================================================ -/

/-- The signature check the webhook receiver performs (lines 94-108):
the lowercase hex HMAC-SHA512 of JSON.stringify(req.body) under the
configured secret must equal the signature header exactly. -/
def verifySignatureCode (secret : String) (body : Json) (signature : String) : Bool :=
  hmacSha512Hex secret (jsonStringify body) == signature

/-- Modelled from the spec: verify(rawBodyBytes, signatureHeader,
secretKey), the hash computed over the byte-identical received body.
Stated only to compare the spec's contract with the code's check. -/
def verifySignatureSpec (secret : String) (rawBody : String) (signature : String) : Bool :=
  hmacSha512Hex secret rawBody == signature

/-- Whether one enabled subscriber's verification lookup confirms
ownership of the reference (the test on line 274, over the outcome the
environment gives its check URL). -/
def confirmsOwnership (net : String → DownstreamBehavior) (paymentReference : Json)
    (system : TicketingSystem) : Bool :=
  lookupFound (axiosLt500 (system.timeout.getD 5000) (net (checkUrl system paymentReference)))

/-- Body bytes of a forward POST action (none on a lookup). -/
def DispatchAction.postBodyBytes : DispatchAction → Option String
  | .forwardPost _ b _ => some b
  | .verifyLookup _ => none

/-- The first registry entry (CBS) with the default base URL. -/
def cbsSystem : TicketingSystem :=
  { id := some "cbs-ticketing",
    name := "CBS Ticketing",
    baseUrl := "https://cbs-ticketing.com",
    webhookPath := "/api/webhooks/paystack",
    healthCheck := "/health",
    enabled := true,
    timeout := some 30000 }

/-- A concrete raw body with one interior space: its parse-stringify
round trip is not the identity. -/
def rawBodyW : String := "\x7b\"a\": 1\x7d"

/-- The parse of rawBodyW. -/
def bodyW : Json := .obj (.cons "a" (.num 1) .nil)

/-- A concrete reference for the resolver witnesses. -/
def refW : Json := .str "REF-1"

/-- An environment where every downstream check answers 200. -/
def netAll200 : String → DownstreamBehavior := fun _ => .respond 200 (.obj .nil)

/-- An environment answering 404 everywhere. -/
def netAll404 : String → DownstreamBehavior := fun _ => .respond 404 (.obj .nil)

/-- An environment answering 404 on every check URL but timing out on
the CBS forward URL (it agrees with netAll404 on all check URLs). -/
def netMixedW : String → DownstreamBehavior := fun url =>
  if url = "https://cbs-ticketing.com/api/webhooks/paystack" then .timeout
  else .respond 404 (.obj .nil)

/-- An environment that always times out. -/
def netAllTimeout : String → DownstreamBehavior := fun _ => .timeout

/-- A duplicate-identifier admin request: its id is the id the initial
registry already holds. -/
def dupAdminRequest : AdminSystemRequest :=
  { id := some "cbs-ticketing",
    name := some "CBS Clone",
    baseUrl := some "https://clone.example.com",
    webhookPath := none,
    enabled := none,
    timeout := none }
set_option maxRecDepth 8000 in
/-- The literal initial hash words are exactly the FIPS 180-4
fractional-square-root values. -/
theorem sha512H0_certified : sha512H0 = sha512H0fromPrimes := by decide

set_option maxRecDepth 8000 in
/-- The literal round constants are exactly the FIPS 180-4
fractional-cube-root values. -/
theorem sha512K_certified : sha512K = sha512KfromPrimes := by decide

set_option maxRecDepth 4000 in
/-- FIPS 180-4 test vector: SHA-512 of "abc". -/
theorem sha512_vector_abc :
    bytesToHex (sha512Bytes (strBytes "abc")) =
      "ddaf35a193617abacc417349ae20413112e6fa4e89a97ea20a9eeee64b55d39a2192992a274fc1a836ba3c23a3feebbd454d4423643ce80e2a9ac94fa54ca49f" := by
  decide

set_option maxRecDepth 4000 in
/-- Standard HMAC-SHA512 test vector (key "key", quick brown fox). -/
theorem hmacSha512_vector_fox :
    hmacSha512Hex "key" "The quick brown fox jumps over the lazy dog" =
      "b42af09057bac1e2d41708e48a902e09b5ff7f12ab428a4fe86653c73dd248fb82f948a549f7b791a5b41915ee4d1ec3935357e4e2317250d0372afa2ebeeb3a" := by
  decide


/- ============================================================
   Resolver lemmas.
   ============================================================ -/

/-- Helper: taking the first non-null of checks that return the element
on success equals taking the first element satisfying the predicate. -/
theorem findMapIf {α : Type} (p : α → Bool) (l : List α) :
    ((l.map fun s => if p s then some s else none).find? Option.isSome).join = l.find? p := by
  induction l with
  | nil => rfl
  | cons a l ih =>
      simp only [List.map_cons]
      by_cases h : p a
      · rw [List.find?_cons_of_pos _ (by simp [h]), List.find?_cons_of_pos _ h]
        simp [h]
      · rw [List.find?_cons_of_neg _ (by simp [h]), List.find?_cons_of_neg _ h]
        exact ih

/-- findTargetSystem returns the first enabled subscriber, in registry
order, whose lookup confirms ownership. -/
theorem findTargetSystem_fst (net : String → DownstreamBehavior) (r : Json)
    (systems : List TicketingSystem) :
    (findTargetSystem net r systems).1 =
      (systems.filter (·.enabled)).find? (confirmsOwnership net r) :=
  findMapIf (confirmsOwnership net r) (systems.filter (·.enabled))

/-- The forward action (URL, serialized body, headers) does not depend
on the downstream outcome. -/
theorem forwardWebhook_action_eq (net : String → DownstreamBehavior)
    (tsys : TicketingSystem) (body : Json) (sig xff : Option String) (rid : String) :
    (forwardWebhook net tsys body sig xff rid).2.1 =
      DispatchAction.forwardPost (forwardUrl tsys) (jsonStringify body)
        (forwardHeaders sig xff rid) := by
  cases h : axiosLt500 (tsys.timeout.getD 30000) (net (forwardUrl tsys)) <;>
    simp [forwardWebhook, h]

/-- Helper: a successful find? splits the list at the first hit. -/
theorem find_eq_some_split {α : Type} (p : α → Bool) (l : List α) (a : α)
    (h : l.find? p = some a) :
    ∃ l1 l2, l = l1 ++ a :: l2 ∧ (∀ t ∈ l1, p t = false) := by
  induction l with
  | nil => simp [List.find?] at h
  | cons b l ih =>
      by_cases hb : p b
      · rw [List.find?_cons_of_pos _ hb] at h
        obtain rfl : b = a := by injection h
        exact ⟨[], l, rfl, by simp⟩
      · rw [List.find?_cons_of_neg _ hb] at h
        obtain ⟨l1, l2, rfl, hl1⟩ := ih h
        refine ⟨b :: l1, l2, rfl, ?_⟩
        intro t ht
        rcases List.mem_cons.mp ht with rfl | ht
        · exact Bool.not_eq_true _ ▸ (by simpa using hb)
        · exact hl1 t ht

/-- Helper: find? only looks at the predicate's values on the list. -/
theorem findP_congr {α : Type} (p q : α → Bool) (l : List α)
    (h : ∀ x ∈ l, p x = q x) : l.find? p = l.find? q := by
  induction l with
  | nil => rfl
  | cons a l ih =>
      have ha := h a (by simp)
      by_cases hp : p a
      · rw [List.find?_cons_of_pos _ hp, List.find?_cons_of_pos _ (ha ▸ hp)]
      · rw [List.find?_cons_of_neg _ hp, List.find?_cons_of_neg _ (by rw [← ha]; exact hp)]
        exact ih fun x hx => h x (by simp [hx])

/-- C5: resolution awaits the whole fan-out (Promise.all keeps registry
order regardless of completion order), and when at least one enabled
subscriber confirms ownership, findTargetSystem returns the first
confirmed subscriber in registry order: every enabled subscriber
strictly earlier in the registry did not confirm.  Completion order
does not appear in the result, which depends only on the per-URL
downstream behavior, so the tie-break is deterministic. -/
theorem resolver_returns_first_confirmed_in_registry_order
    (systems : List TicketingSystem) (net : String → DownstreamBehavior) (r : Json)
    (h : ∃ s ∈ systems.filter (·.enabled), confirmsOwnership net r s = true) :
    ∃ s l1 l2,
      (findTargetSystem net r systems).1 = some s ∧
      confirmsOwnership net r s = true ∧
      systems.filter (·.enabled) = l1 ++ s :: l2 ∧
      ∀ t ∈ l1, confirmsOwnership net r t = false := by
  obtain ⟨s0, hs0, hc0⟩ := h
  have hsome : ((systems.filter (·.enabled)).find? (confirmsOwnership net r)).isSome := by
    rw [List.find?_isSome]
    exact ⟨s0, hs0, hc0⟩
  obtain ⟨s, hs⟩ := Option.isSome_iff_exists.mp hsome
  obtain ⟨l1, l2, hsplit, hl1⟩ := find_eq_some_split _ _ _ hs
  exact ⟨s, l1, l2, by rw [findTargetSystem_fst]; exact hs, List.find?_some hs, hsplit, hl1⟩

/-- Witness for C5 at a concrete registry, reference and environment in
which every subscriber answers 200. -/
theorem resolver_first_confirmed_witness :
    ∃ s l1 l2,
      (findTargetSystem netAll200 refW (TICKETING_SYSTEMS none)).1 = some s ∧
      confirmsOwnership netAll200 refW s = true ∧
      (TICKETING_SYSTEMS none).filter (·.enabled) = l1 ++ s :: l2 ∧
      ∀ t ∈ l1, confirmsOwnership netAll200 refW t = false :=
  resolver_returns_first_confirmed_in_registry_order (TICKETING_SYSTEMS none) netAll200 refW
    ⟨cbsSystem, by decide, by rfl⟩

/-- C9: resolution is idempotent.  findTargetSystem is a pure function
of the registry and of each enabled subscriber's response at its check
URL, so two resolutions of the same reference against an unchanged
registry and unchanged downstream responses (two environments agreeing
on every enabled check URL) return the same subscriber or none both
times. -/
theorem resolver_idempotent_under_unchanged_responses
    (systems : List TicketingSystem) (net1 net2 : String → DownstreamBehavior) (r : Json)
    (h : ∀ s ∈ systems, s.enabled = true → net1 (checkUrl s r) = net2 (checkUrl s r)) :
    (findTargetSystem net1 r systems).1 = (findTargetSystem net2 r systems).1 := by
  rw [findTargetSystem_fst, findTargetSystem_fst]
  apply findP_congr
  intro s hs
  obtain ⟨hmem, hen⟩ := List.mem_filter.mp hs
  unfold confirmsOwnership
  rw [h s hmem (by simpa using hen)]

/-- Witness for C9: two different environments that agree on every
check URL resolve identically. -/
theorem resolver_idempotent_witness :
    (findTargetSystem netAll404 refW (TICKETING_SYSTEMS none)).1 =
      (findTargetSystem netMixedW refW (TICKETING_SYSTEMS none)).1 :=
  resolver_idempotent_under_unchanged_responses (TICKETING_SYSTEMS none) netAll404 netMixedW refW
    (by
      intro s hs he
      have : s = cbsSystem ∨ s = (TICKETING_SYSTEMS none).get ⟨1, by decide⟩ := by
        simpa [TICKETING_SYSTEMS, cbsSystem] using hs
      rcases this with rfl | rfl <;> rfl)

/-- C6: one subscriber's lookup confirms a match exactly when its
verification endpoint answers 200, or 400 with a truthy ticket under
response.data?.data?.ticket; every other status (500+ rejects under
validateStatus), every timeout and every transport failure makes that
one subscriber a non-match — the rejection is swallowed by the catch,
and resolution is still the total first-confirmed scan of the rest of
the registry, so one unreachable subscriber never fails it. -/
theorem lookup_match_classification :
    (∀ (t : Nat) (b : DownstreamBehavior),
      lookupFound (axiosLt500 t b) = true ↔
        ((∃ body, b = .respond 200 body) ∨
         (∃ body, b = .respond 400 body ∧
            jsOptTruthy (optChain (optChain (some body) "data") "ticket") = true))) ∧
    (∀ (net : String → DownstreamBehavior) (r : Json) (systems : List TicketingSystem),
      (findTargetSystem net r systems).1 =
        (systems.filter (·.enabled)).find? (confirmsOwnership net r)) := by
  constructor
  · intro t b
    cases b with
    | respond s body =>
        by_cases h5 : s < 500
        · simp only [axiosLt500, h5, if_true, lookupFound, Bool.or_eq_true, beq_iff_eq,
            Bool.and_eq_true, DownstreamBehavior.respond.injEq]
          constructor
          · rintro (h | ⟨h4, hp⟩)
            · exact Or.inl ⟨body, h, rfl⟩
            · exact Or.inr ⟨body, ⟨h4, rfl⟩, hp⟩
          · rintro (⟨b1, h2, hb⟩ | ⟨b1, ⟨h4, hb⟩, hp⟩)
            · exact Or.inl h2
            · exact Or.inr ⟨h4, hb ▸ hp⟩
        · have h200 : ¬ s = 200 := by omega
          have h400 : ¬ s = 400 := by omega
          simp [axiosLt500, h5, lookupFound, h200, h400]
    | timeout => simp [axiosLt500, lookupFound]
    | netFail c m => simp [axiosLt500, lookupFound]
  · intro net r systems
    exact findTargetSystem_fst net r systems

/-- C4: forward outcome classification.  A downstream response below
500 is a completed forward: success true with the downstream status and
body surfaced in the result.  A 500+ response, a timeout or a transport
failure is a failure: success false, the error message in the result,
the downstream status kept when a response exists, and the failure log
capturing message, transport error code and downstream status where
available. -/
theorem forward_outcome_classification :
    ∀ (net : String → DownstreamBehavior) (tsys : TicketingSystem) (body : Json)
      (sig xff : Option String) (rid : String),
      (∀ s d, net (forwardUrl tsys) = .respond s d → s < 500 →
        (forwardWebhook net tsys body sig xff rid).1 =
          { success := true, status := .httpStatus s, data := some d, error := none }) ∧
      (∀ s d, net (forwardUrl tsys) = .respond s d → 500 ≤ s →
        (forwardWebhook net tsys body sig xff rid).1 =
          { success := false, status := .httpStatus s, data := none,
            error := some ("Request failed with status code " ++ toString s) } ∧
        (forwardWebhook net tsys body sig xff rid).2.2 =
          some { errorMessage := "Request failed with status code " ++ toString s,
                 errorCode := some "ERR_BAD_RESPONSE", responseStatus := some s }) ∧
      (net (forwardUrl tsys) = .timeout →
        (forwardWebhook net tsys body sig xff rid).1 =
          { success := false, status := .networkErrorStr, data := none,
            error := some ("timeout of " ++ toString (tsys.timeout.getD 30000) ++ "ms exceeded") } ∧
        (forwardWebhook net tsys body sig xff rid).2.2 =
          some { errorMessage := "timeout of " ++ toString (tsys.timeout.getD 30000) ++ "ms exceeded",
                 errorCode := some "ECONNABORTED", responseStatus := none }) ∧
      (∀ c m, net (forwardUrl tsys) = .netFail c m →
        (forwardWebhook net tsys body sig xff rid).1 =
          { success := false, status := .networkErrorStr, data := none, error := some m } ∧
        (forwardWebhook net tsys body sig xff rid).2.2 =
          some { errorMessage := m, errorCode := some c, responseStatus := none }) := by
  intro net tsys body sig xff rid
  refine ⟨?_, ?_, ?_, ?_⟩
  · intro s d hnet h5
    simp [forwardWebhook, hnet, axiosLt500, h5]
  · intro s d hnet h5
    have h5n : ¬ s < 500 := by omega
    have h0 : ¬ s = 0 := by omega
    constructor <;> simp [forwardWebhook, hnet, axiosLt500, h5n, jsOrNetworkError, h0]
  · intro hnet
    constructor <;> simp [forwardWebhook, hnet, axiosLt500, jsOrNetworkError]
  · intro c m hnet
    constructor <;> simp [forwardWebhook, hnet, axiosLt500, jsOrNetworkError]

/-- C10: a forward attempt that fails with no downstream HTTP response
(timeout or transport-level failure) yields success false and the
status field holding the network_error marker string, not a numeric
status. -/
theorem forward_network_error_status
    (net : String → DownstreamBehavior) (tsys : TicketingSystem) (body : Json)
    (sig xff : Option String) (rid : String)
    (h : net (forwardUrl tsys) = DownstreamBehavior.timeout ∨
         ∃ c m, net (forwardUrl tsys) = DownstreamBehavior.netFail c m) :
    (forwardWebhook net tsys body sig xff rid).1.success = false ∧
    (forwardWebhook net tsys body sig xff rid).1.status = ForwardStatus.networkErrorStr := by
  rcases h with h | ⟨c, m, h⟩ <;>
    constructor <;> simp [forwardWebhook, h, axiosLt500, jsOrNetworkError]

/-- Witness for C10: an always-timing-out downstream. -/
theorem forward_network_error_status_witness :
    (forwardWebhook netAllTimeout cbsSystem bodyW (some "sig") none "req-1").1.success = false ∧
    (forwardWebhook netAllTimeout cbsSystem bodyW (some "sig") none "req-1").1.status =
      ForwardStatus.networkErrorStr :=
  forward_network_error_status netAllTimeout cbsSystem bodyW (some "sig") none "req-1"
    (Or.inl rfl)

/-- C3: an event with no signature header terminates with 400 and the
reason Missing signature, which differs from the Invalid signature
reason reported for a present-but-mismatched header. -/
theorem missing_signature_distinct_rejection :
    ∀ (secret : String) (systems : List TicketingSystem) (net : String → DownstreamBehavior)
      (rid : String) (pt : Int) (xff : Option String) (body : Json),
      (handlePaystackWebhook secret systems net rid pt none xff body).1 =
        ⟨400, errorBody "Missing signature"⟩ ∧
      (∀ sig, sig ≠ hmacSha512Hex secret (jsonStringify body) →
        (handlePaystackWebhook secret systems net rid pt (some sig) xff body).1 =
          ⟨400, errorBody "Invalid signature"⟩) ∧
      errorBody "Missing signature" ≠ errorBody "Invalid signature" := by
  intro secret systems net rid pt xff body
  refine ⟨rfl, ?_, ?_⟩
  · intro sig hs
    have hne : hmacSha512Hex secret (jsonStringify body) ≠ sig := fun h => hs h.symm
    simp [handlePaystackWebhook, hne]
  · intro h
    simp only [errorBody, Json.obj.injEq, JsonObj.cons.injEq, Json.str.injEq] at h
    exact absurd h.2.1 (by decide)

set_option maxRecDepth 4000 in
/-- C1 counterexample: a raw body with one interior space parses to
bodyW, a provider signature computed over the exact raw bytes passes
the spec's verify, yet the code's check (over the JSON.stringify
re-serialization) rejects that same signature. -/
theorem signature_raw_vs_reserialized_counterexample :
    jsonParse rawBodyW = some bodyW ∧
    verifySignatureSpec "sk" rawBodyW (hmacSha512Hex "sk" rawBodyW) = true ∧
    verifySignatureCode "sk" bodyW (hmacSha512Hex "sk" rawBodyW) = false := by
  refine ⟨rfl, ?_, ?_⟩
  · simp [verifySignatureSpec]
  · decide

/-- C1 amended: the code's verification succeeds exactly when the
HMAC-SHA512 of the JSON.stringify re-serialization of the parsed body
equals the signature header (the handler reports Invalid signature
exactly when that check fails), and it agrees with hashing the raw
received bytes precisely when the raw body equals its
parse-then-stringify round trip. -/
theorem signature_check_over_reserialized_body :
    ∀ (secret : String) (systems : List TicketingSystem) (net : String → DownstreamBehavior)
      (rid : String) (pt : Int) (xff : Option String) (body : Json) (sig : String),
      ((handlePaystackWebhook secret systems net rid pt (some sig) xff body).1.body =
          errorBody "Invalid signature" ↔
        verifySignatureCode secret body sig = false) ∧
      (∀ raw, jsonParse raw = some body → jsonStringify body = raw →
        verifySignatureCode secret body sig = verifySignatureSpec secret raw sig) := by
  intro secret systems net rid pt xff body sig
  constructor
  · by_cases hsig : hmacSha512Hex secret (jsonStringify body) = sig
    · have hv : verifySignatureCode secret body sig = true := by
        simp [verifySignatureCode, hsig]
      rw [hv]
      constructor
      · intro hA
        exfalso
        revert hA
        rcases href : optChain (getField body "data") "reference" with _ | r
        · simp [handlePaystackWebhook, hsig, href, errorBody]
        · by_cases htr : jsTruthy r = true
          · rcases hft : findTargetSystem net r systems with ⟨tgt, acts⟩
            cases tgt with
            | none => simp [handlePaystackWebhook, hsig, href, htr, hft, errorBody]
            | some t =>
                rcases hfw : forwardWebhook net t body (some sig) xff rid with ⟨fr, rest⟩
                by_cases hsucc : fr.success = true
                · simp [handlePaystackWebhook, hsig, href, htr, hft, hfw, hsucc, errorBody]
                · simp [handlePaystackWebhook, hsig, href, htr, hft, hfw, hsucc, errorBody]
          · simp [handlePaystackWebhook, hsig, href, htr, errorBody]
      · intro h
        exact absurd h (by simp)
    · have hv : verifySignatureCode secret body sig = false := by
        simp [verifySignatureCode, hsig]
      rw [hv]
      simp [handlePaystackWebhook, hsig]
  · intro raw hparse hrt
    simp [verifySignatureCode, verifySignatureSpec, hrt]

/-- C7: in one dispatch the outbound trace is all the verification
lookups followed by at most one forward; when a forward happens, the
reference was extracted from the body once, the whole enabled fan-out
was issued for that same reference before the forward, the forward
target is the resolver's result, and the forwarded bytes are the same
event body. -/
theorem dispatch_single_forward_after_full_resolution :
    ∀ (secret : String) (systems : List TicketingSystem) (net : String → DownstreamBehavior)
      (rid : String) (pt : Int) (sig xff : Option String) (body : Json),
      ∃ lookups forwards,
        (handlePaystackWebhook secret systems net rid pt sig xff body).2 =
          lookups ++ forwards ∧
        (∀ a ∈ lookups, a.isForward = false) ∧
        (∀ a ∈ forwards, a.isForward = true) ∧
        forwards.length ≤ 1 ∧
        (forwards ≠ [] →
          ∃ r target,
            optChain (getField body "data") "reference" = some r ∧
            jsTruthy r = true ∧
            lookups = (systems.filter (·.enabled)).map
              (fun s => DispatchAction.verifyLookup (checkUrl s r)) ∧
            (findTargetSystem net r systems).1 = some target ∧
            forwards = [DispatchAction.forwardPost (forwardUrl target) (jsonStringify body)
              (forwardHeaders sig xff rid)]) := by
  intro secret systems net rid pt sig xff body
  cases sig with
  | none => exact ⟨[], [], rfl, by simp, by simp, by simp, by simp⟩
  | some sigv =>
      by_cases hsig : hmacSha512Hex secret (jsonStringify body) = sigv
      · rcases href : optChain (getField body "data") "reference" with _ | r
        · exact ⟨[], [], by simp [handlePaystackWebhook, hsig, href], by simp, by simp,
            by simp, by simp⟩
        · by_cases htr : jsTruthy r = true
          · rcases hft : findTargetSystem net r systems with ⟨tgt, acts⟩
            have hacts : acts = (systems.filter (·.enabled)).map
                (fun s => DispatchAction.verifyLookup (checkUrl s r)) := by
              have h2 : (findTargetSystem net r systems).2 = (systems.filter (·.enabled)).map
                  (fun s => DispatchAction.verifyLookup (checkUrl s r)) := rfl
              rw [hft] at h2
              exact h2
            have hlkp : ∀ a ∈ acts, a.isForward = false := by
              intro a ha
              rw [hacts] at ha
              rcases List.mem_map.mp ha with ⟨s, _, rfl⟩
              rfl
            cases tgt with
            | none =>
                refine ⟨acts, [], ?_, hlkp, by simp, by simp, by simp⟩
                simp [handlePaystackWebhook, hsig, href, htr, hft]
            | some t =>
                rcases hfw : forwardWebhook net t body (some sigv) xff rid with ⟨fr, fa, lg⟩
                have hfa : fa = DispatchAction.forwardPost (forwardUrl t) (jsonStringify body)
                    (forwardHeaders (some sigv) xff rid) := by
                  have ha := forwardWebhook_action_eq net t body (some sigv) xff rid
                  rw [hfw] at ha
                  exact ha
                refine ⟨acts, [fa], ?_, hlkp, ?_, by simp, ?_⟩
                · by_cases hsucc : fr.success = true <;>
                    simp [handlePaystackWebhook, hsig, href, htr, hft, hfw, hsucc]
                · intro a ha
                  have : a = fa := by simpa using ha
                  subst this
                  rw [hfa]
                  rfl
                · intro _
                  refine ⟨r, t, rfl, htr, hacts, by rw [hft], by rw [hfa]⟩
          · exact ⟨[], [], by simp [handlePaystackWebhook, hsig, href, htr], by simp, by simp,
              by simp, by simp⟩
      · exact ⟨[], [], by simp [handlePaystackWebhook, hsig], by simp, by simp, by simp,
          by simp⟩

/-- C2 counterexample: an admin request whose id duplicates the initial
registry's cbs-ticketing identifier is accepted (HTTP 200) and
appended, leaving two registry entries with the same identifier — the
mutation performs no duplicate check. -/
theorem duplicate_identifier_accepted_counterexample :
    (appPostAdminSystems (TICKETING_SYSTEMS none) dupAdminRequest).1.status = 200 ∧
    ((appPostAdminSystems (TICKETING_SYSTEMS none) dupAdminRequest).2.countP
      (fun s => s.id == some "cbs-ticketing")) = 2 := by
  exact ⟨rfl, rfl⟩

/-- C2 amended: the append-subscriber mutation validates that id, name
and baseUrl are present and non-empty, rejecting with 400 and leaving
the registry unchanged otherwise; a valid request is always appended
with the defaults applied, with no duplicate-identifier check, so a
duplicate identifier enters the registry. -/
theorem admin_add_validates_presence_but_not_uniqueness :
    ∀ (registry : List TicketingSystem) (req : AdminSystemRequest),
      ((req.id = none ∨ req.id = some "" ∨ req.name = none ∨ req.name = some "" ∨
        req.baseUrl = none ∨ req.baseUrl = some "") →
        (appPostAdminSystems registry req).1.status = 400 ∧
        (appPostAdminSystems registry req).2 = registry) ∧
      (∀ id name baseUrl,
        req.id = some id → id ≠ "" →
        req.name = some name → name ≠ "" →
        req.baseUrl = some baseUrl → baseUrl ≠ "" →
        (appPostAdminSystems registry req).1.status = 200 ∧
        (appPostAdminSystems registry req).2 =
          registry ++ [{ id := some id,
                         name := name,
                         baseUrl := baseUrl,
                         webhookPath := req.webhookPath.getD "/api/webhooks/paystack",
                         healthCheck := "/health",
                         enabled := req.enabled.getD true,
                         timeout := some (req.timeout.getD 30000) }]) := by
  intro registry req
  rcases req with ⟨rid, rname, rurl, rpath, ren, rtm⟩
  constructor
  · intro h
    rcases rid with _ | id
    · exact ⟨rfl, rfl⟩
    · rcases rname with _ | nm
      · exact ⟨rfl, rfl⟩
      · rcases rurl with _ | bu
        · exact ⟨rfl, rfl⟩
        · have hguard : id = "" ∨ nm = "" ∨ bu = "" := by simpa using h
          simp only [appPostAdminSystems]
          rw [if_pos hguard]
          exact ⟨rfl, rfl⟩
  · intro id nm bu hid hidne hnm hnmne hbu hbune
    cases hid
    cases hnm
    cases hbu
    have hguard : ¬ (id = "" ∨ nm = "" ∨ bu = "") := by
      rintro (h | h | h)
      · exact hidne h
      · exact hnmne h
      · exact hbune h
    simp only [appPostAdminSystems]
    rw [if_neg hguard]
    exact ⟨rfl, rfl⟩

/-- C8 counterexample: the forwarder posts the JSON.stringify
re-serialization of the parsed payload, and for a raw body with one
interior space that re-serialization differs from the received bytes,
so the forwarded body is not byte-identical to the inbound one. -/
theorem forward_not_byte_identical_counterexample :
    jsonParse rawBodyW = some bodyW ∧
    (forwardWebhook netAll200 cbsSystem bodyW (some "sig") none "req-1").2.1.postBodyBytes =
      some (jsonStringify bodyW) ∧
    jsonStringify bodyW ≠ rawBodyW := by
  refine ⟨rfl, rfl, ?_⟩
  decide

/-- C8 amended: the forward action posts to subscriber.baseUrl +
subscriber.webhookPath the JSON.stringify serialization of the original
parsed payload (the payload value is passed to the client verbatim),
with content-type json, the original signature header unchanged, the
fixed dispatcher user-agent, the forwarded-for fallback, and the
request-correlation id; the body bytes equal the raw received bytes
exactly when the raw body round-trips through parse and stringify. -/
theorem forward_sends_payload_and_headers :
    ∀ (net : String → DownstreamBehavior) (tsys : TicketingSystem) (body : Json)
      (sig xff : Option String) (rid : String),
      (forwardWebhook net tsys body sig xff rid).2.1 =
        DispatchAction.forwardPost (tsys.baseUrl ++ tsys.webhookPath) (jsonStringify body)
          { contentType := "application/json",
            xPaystackSignature := sig,
            userAgent := "Paystack-Webhook-Dispatcher/1.0",
            xForwardedFor := jsOrStr xff "dispatcher",
            xRequestId := rid } ∧
      (∀ raw, jsonParse raw = some body → jsonStringify body = raw →
        (forwardWebhook net tsys body sig xff rid).2.1.postBodyBytes = some raw) := by
  intro net tsys body sig xff rid
  constructor
  · rw [forwardWebhook_action_eq]
    rfl
  · intro raw hparse hrt
    rw [forwardWebhook_action_eq]
    simp [DispatchAction.postBodyBytes, hrt]
